import Mathlib

/-!
Verification development for the summer walking-simulator engine.

This file gives a shallow embedding, in Lean 4, of the parts of the engine
that the specification's claims talk about:

* the per-frame render loop (src/core/Core.ts, src/core/Engine.ts),
* the player controller (src/entities/Player.ts): mouse-look angle update,
  velocity integration and clamping, per-axis grid/box collision
  resolution, and floor/stair snapping,
* the map geometry builder's wall-face emission (src/map/World.ts,
  triangulateMap),
* the instanced sprite renderer (Sprites: rebuildVao, renderBillboards,
  generateCollider),
* the map fragment shader's shadow comparison.

Number model: the engine computes in IEEE doubles; the embedding uses exact
rationals (and reals where the code uses pow/sqrt), so every stated equality
is the exact-arithmetic idealisation of the float computation.  Rotations by
multiples of 90 degrees (stair facing, wall-face direction index) use the
exact values of sine and cosine at those angles.
-/

namespace Summer

/-! ## Render loop trace (Core.frameUpdate, Engine.init/update/render)

The imperative frame loop is embedded as the list of pipeline events each
function performs, in program order. -/

/-- One observable pipeline event of the engine. -/
inductive RenderEvent
  | shadowPass
  | colorPass
  | logicUpdate
deriving DecidableEq

/-- Events performed by Engine.init: it calls this.renderShadow() once
(the only call site of renderShadow in the engine). -/
def engineInitTrace : List RenderEvent := [RenderEvent.shadowPass]

/-- Events performed by Engine.update: sprite animation and player logic
(no rendering). -/
def engineUpdateTrace : List RenderEvent := [RenderEvent.logicUpdate]

/-- Events performed by Engine.render: clear, bind camera matrices, then the
color pass (sky, map, fences, sprites).  It contains no shadow rendering. -/
def engineRenderTrace : List RenderEvent := [RenderEvent.colorPass]

/-- Events of one requestAnimationFrame callback (Core.frameUpdate):
engine.update(delta) followed by engine.render(). -/
def frameUpdateTrace : List RenderEvent := engineUpdateTrace ++ engineRenderTrace

/-- Events of a whole session running n frames after Engine.init. -/
def runTrace (n : Nat) : List RenderEvent :=
  engineInitTrace ++ (List.replicate n frameUpdateTrace).flatten

/-! ## Map fragment shader shadow comparison (map.frag.glsl)

In main(): light starts as the vertex-stage directional term lightDot and is
forced to 0 when shadowData.z - 0.0007 > shadowMapValue. -/

/-- Shadow bias of the map fragment shader, exactly 0.0007. -/
def shadowBias : ℚ := 7/10000

/-- Directional light term after the shadow-map comparison of the map
fragment shader: light = lightDot unless shadowZ - 0.0007 > shadowMapValue,
in which case light = 0. -/
def mapFragmentLight (lightDot shadowZ shadowMapValue : ℚ) : ℚ :=
  if shadowZ - shadowBias > shadowMapValue then 0 else lightDot

/-! ## Player mouse-look angles (Player.update)

angleX = (angleX - mouse[0] * 0.15) % 360 with the JavaScript remainder
(sign of the dividend), angleY clamped to [-85, 85]. -/

/-- Truncation toward zero, as used by the JavaScript % operator. -/
def truncQ (x : ℚ) : ℤ := if 0 ≤ x then ⌊x⌋ else ⌈x⌉

/-- The JavaScript remainder operator a % b: a - b * trunc(a / b). -/
def jsRem (a b : ℚ) : ℚ := a - b * (truncQ (a / b) : ℚ)

/-- Mouse-look sensitivity, 0.15 in Player.update. -/
def mouseSpeedFactor : ℚ := 3/20

/-- Yaw update of Player.update: (angleX - mouse[0] * mouseSpeed) % 360. -/
def updateAngleX (angleX mouseX : ℚ) : ℚ :=
  jsRem (angleX - mouseX * mouseSpeedFactor) 360

/-- Pitch update of Player.update:
min(max(angleY - mouse[1] * mouseSpeed, -85), 85). -/
def updateAngleY (angleY mouseY : ℚ) : ℚ :=
  min (max (angleY - mouseY * mouseSpeedFactor) (-85)) 85

/-- The rotation written to the camera at the end of Player.update:
Camera.rotation = [angleY, angleX, 0] with the updated angles. -/
def cameraRotationAfter (angleX angleY mouseX mouseY : ℚ) : ℚ × ℚ × ℚ :=
  (updateAngleY angleY mouseY, updateAngleX angleX mouseX, 0)

/-! ## Blockmap cells and grid -/

/-- One voxel cell of the map: optional wall texture, floor texture and
ceiling texture names (MapReader.Cell). -/
structure Cell where
  wall : Option String
  floor : Option String
  ceil : Option String
deriving DecidableEq

/-- The all-empty cell (no wall, no floor, no ceiling). -/
def emptyCell : Cell := ⟨none, none, none⟩

/-- The cell grid indexed as cells[floor][row][column], as in World.MapCells. -/
abbrev Grid := List (List (List Cell))

/-- JavaScript-style indexing cells[fl][z][x]: out-of-range or negative
indices give undefined, embedded as none. -/
def cellOpt (g : Grid) (fl z x : ℤ) : Option Cell :=
  if 0 ≤ fl ∧ 0 ≤ z ∧ 0 ≤ x then
    ((g.get? fl.toNat).bind (fun rows => rows.get? z.toNat)).bind
      (fun row => row.get? x.toNat)
  else none

/-- The test cell && cell.wall !== null used by the collision scans. -/
def hasWallAt (g : Grid) (fl z x : ℤ) : Bool :=
  ((cellOpt g fl z x).map (fun c => c.wall.isSome)).getD false

/-- The inclusive integer range [a, b] traversed by a JavaScript
for (let i = a; i <= b; i++) loop. -/
def intRange (a b : ℤ) : List ℤ :=
  (List.range (b + 1 - a).toNat).map (fun n => a + n)

/-! ## Player collision resolution (Player.collide) -/

/-- Player capsule radius, 0.2 in Player.collide. -/
def playerRadius : ℚ := 1/5

/-- Player half-height, 0.3 in Player.collide. -/
def playerHeight : ℚ := 3/10

/-- An axis-aligned collision box: center position and full extents
(CollisionBox in Player.ts). -/
structure CollisionBox where
  position : ℚ × ℚ × ℚ
  size : ℚ × ℚ × ℚ
deriving DecidableEq

/-- Player state relevant to collision: position (x, y, z) and horizontal
speed (x, z). -/
structure PlayerState where
  position : ℚ × ℚ × ℚ
  speed : ℚ × ℚ
deriving DecidableEq

/-- Math.sign. -/
def qsign (x : ℚ) : ℤ := if 0 < x then 1 else if x < 0 then -1 else 0

/-- The direction of travel chosen by Player.collide:
speed > 0 ? 1 : -1. -/
def dirOf (s : ℚ) : ℤ := if 0 < s then 1 else -1

/-- X-axis wall scan of Player.collide: starting from the fallback
cx + dir * 5, every floor in the vertical extent and every row in the
lateral extent checks the single neighbouring column cx + dir; a wall
there sets nearest to that cell index (plus 1 when dir < 0).  The inner
break is dropped: every hit assigns the same value. -/
def nearestWallX (g : Grid) (pf px py : ℚ) (dir : ℤ) : ℤ :=
  let cx := ⌊px + 1/2⌋
  let startCell := ⌊py + 1/2 - playerRadius⌋
  let endCell := ⌊py + 1/2 + playerRadius⌋
  let startFloor := max ⌊pf + 1/2 - playerHeight⌋ 0
  let endFloor := max ⌊pf + 1/2 + playerHeight⌋ 0
  (intRange startFloor endFloor).foldl (fun nearest fl =>
    (intRange startCell endCell).foldl (fun nearest2 z =>
      if hasWallAt g fl z (cx + dir) then
        cx + dir + (if dir < 0 then 1 else 0)
      else nearest2) nearest) (cx + dir * 5)

/-- Z-axis wall scan of Player.collide: same structure, but the scanned
lateral extent comes from the (already resolved) x position and the single
neighbouring row is cy + dir. -/
def nearestWallZ (g : Grid) (pf px : ℚ) (cy dir : ℤ) : ℤ :=
  let startCell := ⌊px + 1/2 - playerRadius⌋
  let endCell := ⌊px + 1/2 + playerRadius⌋
  let startFloor := max ⌊pf + 1/2 - playerHeight⌋ 0
  let endFloor := max ⌊pf + 1/2 + playerHeight⌋ 0
  (intRange startFloor endFloor).foldl (fun nearest fl =>
    (intRange startCell endCell).foldl (fun nearest2 x =>
      if hasWallAt g fl (cy + dir) x then
        cy + dir + (if dir < 0 then 1 else 0)
      else nearest2) nearest) (cy + dir * 5)

/-- The Boolean condition under which the X-axis scan hits a wall: some
scanned floor and row has a wall in the adjacent column cx + dir. -/
def adjacentWallHitX (g : Grid) (pf px py : ℚ) (dir : ℤ) : Bool :=
  let cx := ⌊px + 1/2⌋
  (intRange (max ⌊pf + 1/2 - playerHeight⌋ 0) (max ⌊pf + 1/2 + playerHeight⌋ 0)).any
    (fun fl => (intRange ⌊py + 1/2 - playerRadius⌋ ⌊py + 1/2 + playerRadius⌋).any
      (fun z => hasWallAt g fl z (cx + dir)))

/-- The Boolean condition under which the Z-axis scan hits a wall. -/
def adjacentWallHitZ (g : Grid) (pf px : ℚ) (cy dir : ℤ) : Bool :=
  (intRange (max ⌊pf + 1/2 - playerHeight⌋ 0) (max ⌊pf + 1/2 + playerHeight⌋ 0)).any
    (fun fl => (intRange ⌊px + 1/2 - playerRadius⌋ ⌊px + 1/2 + playerRadius⌋).any
      (fun x => hasWallAt g fl (cy + dir) x))

/-- nearest -= 0.5 applied after the X-axis wall scan. -/
def nearestWallBoundaryX (g : Grid) (pf px py : ℚ) (dir : ℤ) : ℚ :=
  (nearestWallX g pf px py dir : ℚ) - 1/2

/-- nearest -= 0.5 applied after the Z-axis wall scan. -/
def nearestWallBoundaryZ (g : Grid) (pf px : ℚ) (cy dir : ℤ) : ℚ :=
  (nearestWallZ g pf px cy dir : ℚ) - 1/2

/-- X-axis AABB pass of Player.collide: every registered box overlapping the
player's z extent and vertical extent, lying in the direction of travel,
tightens the nearest boundary toward its near face bx - bsx * dir. -/
def nearestBoxX (boxes : List CollisionBox) (pf px py : ℚ) (dir : ℤ)
    (init : ℚ) : ℚ :=
  boxes.foldl (fun nearest box =>
    let bx := box.position.1
    let bY := box.position.2.1
    let bz := box.position.2.2
    let bsx := box.size.1 * (1/2)
    let bsy := box.size.2.1 * (1/2)
    let bsz := box.size.2.2 * (1/2)
    if ¬ (bz - bsz > py + playerRadius ∨ bz + bsz < py - playerRadius ∨
          bY - bsy > pf + playerHeight ∨ bY + bsy < pf - playerHeight) then
      if qsign (bx - px) = dir then
        if 0 < dir then min nearest (bx - bsx * (dir : ℚ))
        else max nearest (bx - bsx * (dir : ℚ))
      else nearest
    else nearest) init

/-- Z-axis AABB pass of Player.collide (x extent test uses the already
resolved x position, the sign test the original z position). -/
def nearestBoxZ (boxes : List CollisionBox) (pf px py : ℚ) (dir : ℤ)
    (init : ℚ) : ℚ :=
  boxes.foldl (fun nearest box =>
    let bx := box.position.1
    let bY := box.position.2.1
    let bz := box.position.2.2
    let bsx := box.size.1 * (1/2)
    let bsy := box.size.2.1 * (1/2)
    let bsz := box.size.2.2 * (1/2)
    if ¬ (bx - bsx > px + playerRadius ∨ bx + bsx < px - playerRadius ∨
          bY - bsy > pf + playerHeight ∨ bY + bsy < pf - playerHeight) then
      if qsign (bz - py) = dir then
        if 0 < dir then min nearest (bz - bsz * (dir : ℚ))
        else max nearest (bz - bsz * (dir : ℚ))
      else nearest
    else nearest) init

/-- The nearest X boundary seen by Player.collide: blockmap scan first,
then the AABB boxes tighten it. -/
def nearestX (g : Grid) (boxes : List CollisionBox) (pf px py : ℚ)
    (dir : ℤ) : ℚ :=
  nearestBoxX boxes pf px py dir (nearestWallBoundaryX g pf px py dir)

/-- The nearest Z boundary seen by Player.collide. -/
def nearestZ (g : Grid) (boxes : List CollisionBox) (pf px py : ℚ)
    (cy dir : ℤ) : ℚ :=
  nearestBoxZ boxes pf px py dir (nearestWallBoundaryZ g pf px cy dir)

/-- The per-axis move-and-clamp step of Player.collide: the position moves
by speed * delta; when the result lands within the player radius of the
nearest boundary it is clamped to nearest + radius * (-dir) * 1.001 and the
axis speed is zeroed. -/
def resolveAxis (nearest p s delta : ℚ) (dir : ℤ) : ℚ × ℚ :=
  let p1 := p + s * delta
  if |nearest - p1| < playerRadius then
    (nearest + playerRadius * (-(dir : ℚ)) * (1001/1000), (0 : ℚ))
  else (p1, s)

/-- Player.collide: resolve the X axis, then the Z axis (which sees the
already updated x position, while cy is fixed from the original z
position). -/
def collide (g : Grid) (boxes : List CollisionBox) (st : PlayerState)
    (delta : ℚ) : PlayerState :=
  let pf := st.position.2.1
  let px := st.position.1
  let py := st.position.2.2
  let cy := ⌊py + 1/2⌋
  let xres :=
    if st.speed.1 ≠ 0 then
      resolveAxis (nearestX g boxes pf px py (dirOf st.speed.1)) px
        st.speed.1 delta (dirOf st.speed.1)
    else (px, st.speed.1)
  let zres :=
    if st.speed.2 ≠ 0 then
      resolveAxis (nearestZ g boxes pf xres.1 py cy (dirOf st.speed.2)) py
        st.speed.2 delta (dirOf st.speed.2)
    else (py, st.speed.2)
  { position := (xres.1, pf, zres.1), speed := (xres.2, zres.2) }

/-! ## Floor and stair snapping (Player.putOnFloor) -/

/-- Cell content types of MapReader.CellType. -/
inductive CellType
  | None
  | Wall
  | Sprite
  | Door
  | Stair
deriving DecidableEq

/-- A placed game object: type, grid position, facing side, payload name
(MapReader.Entity; the sprite-template payload is modelled separately). -/
structure Entity where
  type : CellType
  x : ℚ
  y : ℚ
  z : ℚ
  side : ℤ
  id : String
deriving DecidableEq

/-- Exact cosine of side * 90 degrees. -/
def cosSide (side : ℤ) : ℚ :=
  match (side % 4).toNat with
  | 0 => 1
  | 1 => 0
  | 2 => -1
  | _ => 0

/-- Exact sine of side * 90 degrees. -/
def sinSide (side : ℤ) : ℚ :=
  match (side % 4).toNat with
  | 0 => 0
  | 1 => 1
  | 2 => 0
  | _ => -1

/-- The word searched for in floor texture names to pick the step sound. -/
def grassWord : String := "grass"

/-- s.includes(w) for a non-empty pattern, via splitOn. -/
def containsWord (s w : String) : Bool := (s.splitOn w).length != 1

/-- cell.floor.toLowerCase().includes('grass'). -/
def isGrassTexture (o : Option String) : Bool :=
  match o with
  | some t => containsWord t.toLower grassWord
  | none => false

/-- The downward blockmap scan of Player.putOnFloor: from the current floor
index cf down to 0, the first cell that is a wall strictly below cf stands
the player on its top (y + 1); otherwise the first cell with a floor texture
stands the player at y, recording whether the texture name contains grass.
If nothing is found the y position is kept.  (The source indexes
World.MapCells without bounds checks; out-of-range cells are embedded as
empty.) -/
def gridFloorScan (g : Grid) (pos : ℚ × ℚ × ℚ) : ℚ × Bool :=
  let cf := ⌊pos.2.1 + 1/2⌋
  let cx := ⌊pos.1 + 1/2⌋
  let cy := ⌊pos.2.2 + 1/2⌋
  let hit := ((intRange 0 cf).reverse).findSome? (fun y =>
    let c := (cellOpt g y cy cx).getD emptyCell
    if c.wall.isSome ∧ y < cf then some ((y : ℚ) + 1, false)
    else if c.floor.isSome then some ((y : ℚ), isGrassTexture c.floor)
    else none)
  match hit with
  | some r => r
  | none => (pos.2.1, false)

/-- The stair pass of Player.putOnFloor: every stair entity with y ≤ cf
rotates the player's offset into slope space by side * 90 degrees; when the
local point lies in [-0.5, 0.5] x [-0.5, 1.5] the stair position becomes
stair.y + 1 - (local.y + 0.5) / 2 (the last matching stair wins). -/
def stairScan (ents : List Entity) (pos : ℚ × ℚ × ℚ) (cf : ℤ)
    (floorPos : ℚ) : ℚ :=
  (ents.filter (fun en => en.type = CellType.Stair ∧ en.y ≤ (cf : ℚ))).foldl
    (fun sp en =>
      let lx := (pos.1 - en.x) * cosSide en.side - (pos.2.2 - en.z) * sinSide en.side
      let ly := (pos.1 - en.x) * sinSide en.side + (pos.2.2 - en.z) * cosSide en.side
      if -(1/2) ≤ lx ∧ lx ≤ 1/2 ∧ -(1/2) ≤ ly ∧ ly ≤ 3/2 then
        en.y + 1 - (ly + 1/2) / 2
      else sp) floorPos

/-- Player.putOnFloor: the new y position is the max of the grid floor scan
and the stair scan (which starts from the grid value); also reports whether
the player stands on grass. -/
def putOnFloor (g : Grid) (ents : List Entity) (pos : ℚ × ℚ × ℚ) :
    ℚ × Bool :=
  let fp := gridFloorScan g pos
  let cf := ⌊pos.2.1 + 1/2⌋
  let stairPos := stairScan ents pos cf fp.1
  (max fp.1 stairPos, fp.2)

/-! ## Map geometry builder: wall-face emission (World.triangulateMap)

The builder visits every cell; a cell with no wall looks at its 4 grid
neighbours and, for each in-bounds neighbour holding a wall, emits one
vertical quad (4 vertices, 2 triangles) at the shared boundary, rotated by
the direction index i (angle i * 90 degrees). -/

/-- One named rectangle of a texture atlas, in pixels. -/
structure AtlasItem where
  x : ℚ
  y : ℚ
  width : ℚ
  height : ℚ
deriving DecidableEq

/-- The map texture atlas (Resources.Textures): total frame lookup (the
builder indexes it without a missing-texture branch) plus image size. -/
structure MapAtlas where
  frames : String → AtlasItem
  width : ℚ
  height : ℚ

/-- Neighbour column offset for direction index i (i = 1 gives +1,
i = 3 gives -1, else 0), from triangulateMap. -/
def xoff (i : ℕ) : ℤ := if i = 1 then 1 else if i = 3 then -1 else 0

/-- Neighbour row offset for direction index i (i = 0 gives -1, i = 2
gives +1, else 0). -/
def yoff (i : ℕ) : ℤ := if i = 0 then -1 else if i = 2 then 1 else 0

/-- Exact sine of i * 90 degrees, the angle used to rotate the wall face. -/
def sinI (i : ℕ) : ℚ :=
  match i % 4 with
  | 0 => 0
  | 1 => 1
  | 2 => 0
  | _ => -1

/-- Exact cosine of i * 90 degrees. -/
def cosI (i : ℕ) : ℚ :=
  match i % 4 with
  | 0 => 1
  | 1 => 0
  | 2 => -1
  | _ => 0

/-- A wall quad emitted by the builder: the open cell it was emitted from
(fl, y, x), the direction index toward the wall, the four vertex positions,
the shared normal, the four UV pairs, and the two triangles (vertex indices
relative to the quad's base vertex). -/
structure WallQuad where
  fl : ℕ
  y : ℕ
  x : ℕ
  dir : ℕ
  verts : List (ℚ × ℚ × ℚ)
  normal : ℚ × ℚ × ℚ
  uv : List (ℚ × ℚ)
  tris : List (ℕ × ℕ × ℕ)
deriving DecidableEq

/-- The wall quad data pushed by triangulateMap for open cell (fl, y, x)
and direction index i, with the neighbour's wall texture name. -/
def mkWallQuad (atlas : MapAtlas) (wallTex : String) (fl y x i : ℕ) :
    WallQuad :=
  let s := sinI i
  let c := cosI i
  let v1x := -(1/2) * c + (1/2) * s + (x : ℚ)
  let v1y := -(1/2) * s - (1/2) * c + (y : ℚ)
  let v2x := (1/2) * c + (1/2) * s + (x : ℚ)
  let v2y := (1/2) * s - (1/2) * c + (y : ℚ)
  let vnx := -(1/2) * s
  let vny := (1/2) * c
  let tex := atlas.frames wallTex
  let su := tex.x / atlas.width + 1/1000
  let sv := tex.y / atlas.height + 1/1000
  let eu := tex.width / atlas.width + su - 1/500
  let ev := tex.height / atlas.height + sv - 1/500
  { fl := fl, y := y, x := x, dir := i,
    verts := [(v1x, (fl : ℚ) + 1/2, v1y), (v2x, (fl : ℚ) + 1/2, v2y),
              (v1x, (fl : ℚ) - 1/2, v1y), (v2x, (fl : ℚ) - 1/2, v2y)],
    normal := (vnx, 0, vny),
    uv := [(su, sv), (eu, sv), (su, ev), (eu, ev)],
    tris := [(0, 2, 1), (1, 2, 3)] }

/-- Natural-number indexing cells[fl][y][x] inside the builder loops (the
loops keep the indices in range; out of range gives the empty cell). -/
def cellAtN (g : Grid) (fl y x : ℕ) : Cell :=
  (((g.get? fl).bind (fun rows => rows.get? y)).bind
    (fun row => row.get? x)).getD emptyCell

/-- width = cells[0][0].length in triangulateMap. -/
def mapWidth (g : Grid) : ℕ := ((g.headD []).headD []).length

/-- height = cells[0].length in triangulateMap. -/
def mapHeight (g : Grid) : ℕ := (g.headD []).length

/-- The loop-iteration keys (floor, row, column, direction index) of the
wall-emission pass, in program order. -/
def quadKeys (g : Grid) : List (ℕ × ℕ × ℕ × ℕ) :=
  (List.range g.length).flatMap (fun fl =>
    (List.range ((g.get? fl).getD []).length).flatMap (fun y =>
      (List.range (((g.get? fl).getD []).get? y |>.getD []).length).flatMap
        (fun x => (List.range 4).map (fun i => (fl, y, x, i)))))

/-- The wall quad emitted (if any) at loop key (fl, y, x, i): the cell must
have no wall, the neighbour must be in bounds (against the floor-0 map
dimensions, as in the source) and hold a wall. -/
def wallQuadAt (atlas : MapAtlas) (g : Grid) (k : ℕ × ℕ × ℕ × ℕ) :
    Option WallQuad :=
  let fl := k.1
  let y := k.2.1
  let x := k.2.2.1
  let i := k.2.2.2
  if (cellAtN g fl y x).wall = none then
    let nx := (x : ℤ) + xoff i
    let ny := (y : ℤ) + yoff i
    if 0 ≤ nx ∧ nx < (mapWidth g : ℤ) ∧ 0 ≤ ny ∧ ny < (mapHeight g : ℤ) then
      match (cellAtN g fl ny.toNat nx.toNat).wall with
      | some w => some (mkWallQuad atlas w fl y x i)
      | none => none
    else none
  else none

/-- All wall quads emitted by the builder's wall-face pass, in program
order. -/
def wallQuads (atlas : MapAtlas) (g : Grid) : List WallQuad :=
  (quadKeys g).filterMap (wallQuadAt atlas g)

/-- The loop key stored inside a wall quad. -/
def quadKey (q : WallQuad) : ℕ × ℕ × ℕ × ℕ := (q.fl, q.y, q.x, q.dir)

/-- The wall cell a quad's face belongs to: the open cell's coordinates
shifted by the direction offsets. -/
def quadWallCell (q : WallQuad) : ℕ × ℤ × ℤ :=
  (q.fl, (q.y : ℤ) + yoff q.dir, (q.x : ℤ) + xoff q.dir)

/-- Rectangularity of a grid: every floor has the height of floor 0 and
every row the width of row (0,0) (World maps are rectangular by
construction in MapReader). -/
def IsRect (g : Grid) : Prop :=
  ∀ rows ∈ g, rows.length = mapHeight g ∧ ∀ row ∈ rows, row.length = mapWidth g

/-! ## Instanced sprite renderer (Sprites)

From the instanced Sprites manager (the version the current sprite shaders
with per-instance attributes belong to): rebuildVao flattens every live
billboard into per-instance attribute streams with attribute divisor 1, and
renderBillboards draws them in a single drawElementsInstanced call over the
shared unit quad. -/

/-- One animation frame of a sprite template. -/
structure SpriteFrame where
  name : String
  delay : ℚ
  mesh : Bool
deriving DecidableEq

/-- A sprite template definition (MapReader.SpriteDef). -/
structure SpriteDef where
  solid : Bool
  scale : ℚ
  frames : List SpriteFrame
deriving DecidableEq

/-- A runtime sprite template: definition plus animation state. -/
structure SpriteTemplate where
  solid : Bool
  scale : ℚ
  frames : List SpriteFrame
  currentFrame : ℕ
  frameTime : ℚ
deriving DecidableEq

/-- A runtime sprite instance (SpriteEntry): template index, world offset,
uniform scale, facing and the occlusion-query lit flag.  (The mat4 field,
used only by the mesh path, is not modelled.) -/
structure SpriteEntry where
  id : ℕ
  offset : ℚ × ℚ × ℚ
  scale : ℚ
  rotation : ℤ
  lit : Bool
deriving DecidableEq

/-- The sprite texture atlas (Resources.SpriteTextures): the frame lookup
may miss, and the renderer checks for that. -/
structure SpriteAtlas where
  frames : String → Option AtlasItem
  width : ℚ
  height : ℚ

/-- File suffix stripped from frame names before the atlas lookup. -/
def pngExt : String := ".png"

/-- The empty string. -/
def emptyStr : String := ""

/-- Replace every occurrence of pat by rep in a character list (structural
fuel recursion on the list length; the engine's pattern \".png\" is never
empty). -/
def replaceAux : Nat → List Char → List Char → List Char → List Char
  | 0, l, _, _ => l
  | _ + 1, [], _, _ => []
  | n + 1, c :: cs, pat, rep =>
    if pat.isPrefixOf (c :: cs) then
      rep ++ replaceAux n ((c :: cs).drop pat.length) pat rep
    else c :: replaceAux n cs pat rep

/-- frame.name.replace('.png', ''): replace every occurrence of the
extension by the empty string. -/
def spriteAtlasKey (s : String) : String :=
  ⟨replaceAux s.data.length s.data pngExt.data emptyStr.data⟩

/-- this.templates[en.id].frames[tpl.currentFrame], with JavaScript
out-of-range indexing embedded as none. -/
def currentFrameOf (tpls : List SpriteTemplate) (en : SpriteEntry) :
    Option SpriteFrame :=
  (tpls.get? en.id).bind (fun t => t.frames.get? t.currentFrame)

/-- Whether an entry currently shows a billboard (non-mesh) frame. -/
def isBillboard (tpls : List SpriteTemplate) (en : SpriteEntry) : Bool :=
  match currentFrameOf tpls en with
  | some fr => !fr.mesh
  | none => false

/-- The per-instance attribute record pushed by rebuildVao for one live
billboard: atlas UV origin, atlas UV size, world offset, uniform scale and
the lit flag encoded as 1 or 0. -/
structure InstanceData where
  uvStart : ℚ × ℚ
  uvSize : ℚ × ℚ
  offset : ℚ × ℚ × ℚ
  scale : ℚ
  color : ℚ
deriving DecidableEq

/-- A default instance record (for forced extraction only). -/
instance : Inhabited InstanceData :=
  ⟨{ uvStart := (0, 0), uvSize := (0, 0), offset := (0, 0, 0),
     scale := 0, color := 0 }⟩

/-- The instance record rebuildVao pushes for an entry: none when the
current frame is a mesh or its atlas item is missing (the entry is then
skipped and contributes no instance). -/
def instanceOf (atlas : SpriteAtlas) (tpls : List SpriteTemplate)
    (en : SpriteEntry) : Option InstanceData :=
  match currentFrameOf tpls en with
  | none => none
  | some frame =>
    if frame.mesh then none
    else
      match atlas.frames (spriteAtlasKey frame.name) with
      | none => none
      | some it =>
        some { uvStart := (it.x / atlas.width + 1/1000,
                           it.y / atlas.height + 1/1000),
               uvSize := (it.width / atlas.width - 1/500,
                          it.height / atlas.height - 1/500),
               offset := en.offset,
               scale := en.scale,
               color := if en.lit then 1 else 0 }

/-- The flattened per-instance streams built by rebuildVao, in entry
order. -/
def instanceList (atlas : SpriteAtlas) (tpls : List SpriteTemplate)
    (entries : List SpriteEntry) : List InstanceData :=
  entries.filterMap (instanceOf atlas tpls)

/-- this.billboardCount after rebuildVao. -/
def billboardCount (atlas : SpriteAtlas) (tpls : List SpriteTemplate)
    (entries : List SpriteEntry) : ℕ :=
  (instanceList atlas tpls entries).length

/-- The shared unit-quad vertex buffer of the Sprites constructor. -/
def unitQuadVerts : List (ℚ × ℚ × ℚ) :=
  [(-(1/2), 1, 0), (1/2, 1, 0), (-(1/2), 0, 0), (1/2, 0, 0)]

/-- The shared unit-quad index buffer [0, 1, 2, 1, 3, 2]. -/
def unitQuadIndices : List ℕ := [0, 1, 2, 1, 3, 2]

/-- Vertex attributes of the instanced sprite shader. -/
inductive SpriteAttrib
  | position
  | uv
  | uvStart
  | uvSize
  | offset
  | scale
  | color
deriving DecidableEq

/-- The vertexAttribDivisor calls issued by rebuildVao: every per-instance
attribute advances once per instance. -/
def rebuildVaoDivisorCalls : List (SpriteAttrib × ℕ) :=
  [(SpriteAttrib.uvStart, 1), (SpriteAttrib.uvSize, 1),
   (SpriteAttrib.offset, 1), (SpriteAttrib.scale, 1),
   (SpriteAttrib.color, 1)]

/-- The single draw call issued by renderBillboards:
drawElementsInstanced(TRIANGLES, 6, UNSIGNED_BYTE, 0, billboardCount). -/
structure InstancedDrawCall where
  indexCount : ℕ
  instanceCount : ℕ
deriving DecidableEq

/-- renderBillboards draws all live billboards in one instanced call over
the shared unit quad. -/
def renderBillboardsDraw (atlas : SpriteAtlas) (tpls : List SpriteTemplate)
    (entries : List SpriteEntry) : InstancedDrawCall :=
  { indexCount := 6, instanceCount := billboardCount atlas tpls entries }

/-- Sprites.generateCollider: the first mesh frame delegates to the model's
collider; a template with no mesh frame yields the fixed default box of
size (0.14, 1, 0.14) at the entity position. -/
def generateCollider (modelCollider : String → ℚ × ℚ × ℚ → ℤ → ℚ → CollisionBox)
    (sd : SpriteDef) (position : ℚ × ℚ × ℚ) (side : ℤ) : CollisionBox :=
  match sd.frames.find? (fun fr => fr.mesh) with
  | some fr => modelCollider fr.name position side sd.scale
  | none => { position := position, size := (7/50, 1, 7/50) }

/-! ## Velocity integration and clamping (Player.update)

speed = speed * 0.8 ^ delta + move * 0.012 * delta componentwise, then the
speed vector is rescaled to length exactly 0.04 whenever it is longer. -/

/-- Movement acceleration, 0.012 in Player.update. -/
noncomputable def moveAccel : ℝ := 0.012

/-- Maximum movement speed, 0.04 in Player.update. -/
noncomputable def moveMaxSpeed : ℝ := 0.04

/-- vec2.len. -/
noncomputable def vecLen (v : ℝ × ℝ) : ℝ := Real.sqrt (v.1 * v.1 + v.2 * v.2)

/-- The damped-acceleration integration of Player.update:
speed[i] = speed[i] * 0.8 ^ delta + move[i] * 0.012 * delta. -/
noncomputable def integrateSpeed (s m : ℝ × ℝ) (delta : ℝ) : ℝ × ℝ :=
  (s.1 * (0.8 : ℝ) ^ delta + m.1 * moveAccel * delta,
   s.2 * (0.8 : ℝ) ^ delta + m.2 * moveAccel * delta)

/-- The speed clamp of Player.update: when the current length exceeds the
maximum, both components are rescaled by max / length. -/
noncomputable def clampToMax (s : ℝ × ℝ) : ℝ × ℝ :=
  let currentSpeed := vecLen s
  if currentSpeed > moveMaxSpeed then
    (s.1 / currentSpeed * moveMaxSpeed, s.2 / currentSpeed * moveMaxSpeed)
  else s

/-- The whole velocity step of Player.update. -/
noncomputable def updateSpeed (s m : ℝ × ℝ) (delta : ℝ) : ℝ × ℝ :=
  clampToMax (integrateSpeed s m delta)

/-! ## Concrete fixtures used to evaluate the definitions -/

/-- A wall texture name. -/
def brickName : String := "brick"

/-- A floor texture name. -/
def stoneName : String := "stone"

/-- An open cell with a floor texture. -/
def openCellF : Cell := { wall := none, floor := some stoneName, ceil := none }

/-- A solid wall cell. -/
def wallCellB : Cell := { wall := some brickName, floor := none, ceil := none }

/-- One floor, one row, two columns: open at column 0, wall at column 1. -/
def tunnelGrid : Grid := [[[openCellF, wallCellB]]]

/-- A player in the open cell of tunnelGrid moving toward the wall at the
maximum movement speed 0.04. -/
def tunnelStart : PlayerState := { position := (0, 0, 0), speed := (1/25, 0) }

/-- A slow-moving player in the open cell of tunnelGrid. -/
def slowStart : PlayerState := { position := (0, 0, 0), speed := (1/100, 0) }

/-- One floor, one row: a wall two cells ahead of column 0 (columns 0 and 1
open, column 2 a wall). -/
def gapGrid : Grid :=
  [[[openCellF, openCellF, wallCellB, openCellF, openCellF, openCellF]]]

/-- One floor, two rows of one column: open at row 0, wall at row 1. -/
def zGrid : Grid := [[[openCellF], [wallCellB]]]

/-- A slow-moving player in the open cell of zGrid heading toward the wall
along the Z axis. -/
def zStart : PlayerState := { position := (0, 0, 0), speed := (0, 1/100) }

/-- One floor, four rows of three open floor cells. -/
def stairGrid : Grid :=
  [[[openCellF, openCellF, openCellF],
    [openCellF, openCellF, openCellF],
    [openCellF, openCellF, openCellF],
    [openCellF, openCellF, openCellF]]]

/-- A stair entity at grid position (x, y, z) = (2, 0, 3), facing side 0. -/
def stairEnt : Entity :=
  { type := CellType.Stair, x := 2, y := 0, z := 3, side := 0, id := stoneName }

/-- A sprite frame image name with its extension. -/
def treePng : String := "tree.png"

/-- The same name as stored in the atlas (extension stripped). -/
def treeName : String := "tree"

/-- A billboard-only frame. -/
def wFrame : SpriteFrame := { name := treePng, delay := 10, mesh := false }

/-- A one-frame billboard template. -/
def wTpl : SpriteTemplate :=
  { solid := false, scale := 1, frames := [wFrame], currentFrame := 0,
    frameTime := 10 }

/-- A live sprite entry over template 0. -/
def wEntry : SpriteEntry :=
  { id := 0, offset := (3, 0, 4), scale := 1, rotation := 0, lit := true }

/-- A sprite atlas holding exactly the tree frame. -/
def wAtlas : SpriteAtlas :=
  { frames := fun s => if s = treeName then some ⟨16, 32, 8, 8⟩ else none,
    width := 256, height := 256 }

/-- A sprite atlas with no frames at all. -/
def noFrameAtlas : SpriteAtlas :=
  { frames := fun _ => none, width := 256, height := 256 }

/-- A billboard-only sprite definition. -/
def wDef : SpriteDef := { solid := false, scale := 1, frames := [wFrame] }

/-- A dummy mesh-collider provider (never reached for billboard-only
definitions). -/
def wModelCollider : String → ℚ × ℚ × ℚ → ℤ → ℚ → CollisionBox :=
  fun _ p _ _ => { position := p, size := (1, 1, 1) }

/-- A total map atlas for evaluating the geometry builder. -/
def wMapAtlas : MapAtlas :=
  { frames := fun _ => ⟨0, 0, 16, 16⟩, width := 256, height := 256 }

/-- One floor, one row, two columns: wall at column 0, open at column 1. -/
def wallOpenGrid : Grid := [[[wallCellB, openCellF]]]

/-- Three columns of walls in one row (the middle wall's left/right
neighbours are walls; its row neighbours are out of bounds). -/
def enclosedGrid : Grid := [[[wallCellB, wallCellB, wallCellB]]]

/-! ## Helper lemmas -/

/-- A fold that only ever assigns one fixed value ends in that value
exactly when some element satisfies the predicate (the shape of the wall
scans of Player.collide). -/
theorem foldl_setIf {α β : Type} (l : List α) (p : α → Bool) (v init : β) :
    l.foldl (fun acc a => if p a then v else acc) init =
      if l.any p then v else init := by
  induction l generalizing init with
  | nil => simp
  | cons a l ih =>
    simp only [List.foldl_cons, List.any_cons]
    by_cases h : p a = true
    · simp [h, ih]
    · simp [h, ih]

/-- Bounds of the JavaScript remainder by 360: the result always lies
strictly between -360 and 360. -/
theorem jsRem_360_bounds (x : ℚ) : -360 < jsRem x 360 ∧ jsRem x 360 < 360 := by
  have hx : x / 360 * 360 = x := div_mul_cancel₀ x (by norm_num)
  unfold jsRem truncQ
  split_ifs with h
  · have h1 : ((⌊x / 360⌋ : ℚ)) ≤ x / 360 := Int.floor_le _
    have h2 : x / 360 < ⌊x / 360⌋ + 1 := Int.lt_floor_add_one _
    constructor <;> nlinarith [h1, h2, hx]
  · have h1 : x / 360 ≤ ((⌈x / 360⌉ : ℚ)) := Int.le_ceil _
    have h2 : ((⌈x / 360⌉ : ℚ)) < x / 360 + 1 := Int.ceil_lt_add_one _
    constructor <;> nlinarith [h1, h2, hx]

/-- Counting, by stored key, the outputs of a filterMap over a
duplicate-free key list: the count is 1 exactly when the searched key is in
the list and produces an output. -/
theorem countP_filterMap_key {α β : Type} [DecidableEq α] (l : List α)
    (f : α → Option β) (keyOf : β → α)
    (hk : ∀ a b, f a = some b → keyOf b = a) (hnd : l.Nodup) (k : α) :
    (l.filterMap f).countP (fun b => decide (keyOf b = k)) =
      if k ∈ l ∧ (f k).isSome then 1 else 0 := by
  induction l with
  | nil => simp
  | cons a l ih =>
    have hnd2 := List.nodup_cons.mp hnd
    cases hfa : f a with
    | none =>
      rw [List.filterMap_cons_none hfa, ih hnd2.2]
      by_cases hka : k = a
      · subst hka
        simp [hfa, hnd2.1]
      · simp [List.mem_cons, hka]
    | some b =>
      rw [List.filterMap_cons_some hfa, List.countP_cons, ih hnd2.2]
      have hkb : keyOf b = a := hk a b hfa
      by_cases hka : k = a
      · subst hka
        simp [hkb, hnd2.1, hfa]
      · have : ¬ keyOf b = k := by
          rw [hkb]
          exact fun hke => hka hke.symm
        simp [List.mem_cons, hka, this]

/-- A flatMap over a duplicate-free list is duplicate-free when every
produced element remembers which input it came from. -/
theorem nodup_flatMap_tagged {α : Type} (l : List ℕ) (f : ℕ → List α)
    (tag : α → ℕ) (hl : l.Nodup) (hf : ∀ n, (f n).Nodup)
    (ht : ∀ n a, a ∈ f n → tag a = n) : (l.flatMap f).Nodup := by
  induction l with
  | nil => simp
  | cons a l ih =>
    have hnd2 := List.nodup_cons.mp hl
    rw [List.flatMap_cons, List.nodup_append]
    refine ⟨hf a, ih hnd2.2, ?_⟩
    intro x hxa hxl
    obtain ⟨b, hb, hxb⟩ := List.mem_flatMap.mp hxl
    have h1 := ht a x hxa
    have h2 := ht b x hxb
    exact hnd2.1 (h1 ▸ h2 ▸ hb)

/-- The loop keys of the wall-emission pass contain no duplicates. -/
theorem quadKeys_nodup (g : Grid) : (quadKeys g).Nodup := by
  unfold quadKeys
  refine nodup_flatMap_tagged _ _ (fun k => k.1) (List.nodup_range _) ?_ ?_
  · intro fl
    refine nodup_flatMap_tagged _ _ (fun k => k.2.1) (List.nodup_range _) ?_ ?_
    · intro y
      refine nodup_flatMap_tagged _ _ (fun k => k.2.2.1) (List.nodup_range _)
        ?_ ?_
      · intro x
        refine List.Nodup.map ?_ (List.nodup_range 4)
        intro i j hij
        simpa using hij
      · intro x k hk
        obtain ⟨i, _, rfl⟩ := List.mem_map.mp hk
        rfl
    · intro y k hk
      obtain ⟨x, _, hk2⟩ := List.mem_flatMap.mp hk
      obtain ⟨i, _, rfl⟩ := List.mem_map.mp hk2
      rfl
  · intro fl k hk
    obtain ⟨y, _, hk2⟩ := List.mem_flatMap.mp hk
    obtain ⟨x, _, hk3⟩ := List.mem_flatMap.mp hk2
    obtain ⟨i, _, rfl⟩ := List.mem_map.mp hk3
    rfl

/-- Membership in the wall-emission loop keys. -/
theorem mem_quadKeys (g : Grid) (fl y x i : ℕ) :
    (fl, y, x, i) ∈ quadKeys g ↔
      fl < g.length ∧ y < ((g.get? fl).getD []).length ∧
      x < (((g.get? fl).getD []).get? y |>.getD []).length ∧ i < 4 := by
  unfold quadKeys
  constructor
  · intro h
    obtain ⟨fl2, hfl, h2⟩ := List.mem_flatMap.mp h
    obtain ⟨y2, hy, h3⟩ := List.mem_flatMap.mp h2
    obtain ⟨x2, hx, h4⟩ := List.mem_flatMap.mp h3
    obtain ⟨i2, hi, heq⟩ := List.mem_map.mp h4
    obtain ⟨rfl, rfl, rfl, rfl⟩ := Prod.mk.injEq .. ▸ (by
      simpa using heq : fl2 = fl ∧ y2 = y ∧ x2 = x ∧ i2 = i)
    exact ⟨List.mem_range.mp hfl, List.mem_range.mp hy, List.mem_range.mp hx,
      List.mem_range.mp hi⟩
  · rintro ⟨h1, h2, h3, h4⟩
    exact List.mem_flatMap.mpr ⟨fl, List.mem_range.mpr h1,
      List.mem_flatMap.mpr ⟨y, List.mem_range.mpr h2,
        List.mem_flatMap.mpr ⟨x, List.mem_range.mpr h3,
          List.mem_map.mpr ⟨i, List.mem_range.mpr h4, rfl⟩⟩⟩⟩

/-- The key stored in an emitted quad is the loop key it came from. -/
theorem wallQuadAt_key (atlas : MapAtlas) (g : Grid) (k : ℕ × ℕ × ℕ × ℕ)
    (q : WallQuad) (h : wallQuadAt atlas g k = some q) : quadKey q = k := by
  simp only [wallQuadAt] at h
  split_ifs at h
  · split at h
    · cases h
      rfl
    · cases h

/-! ## C1: shadow pass vs frame loop -/

/-- C1, counterexample: the per-frame step relation (Core.frameUpdate, which
calls Engine.update then Engine.render) contains no shadow pass at all, so
it is false that every rendered frame executes a shadow pass before its
color pass. -/
theorem frame_trace_lacks_shadow_pass :
    RenderEvent.shadowPass ∉ frameUpdateTrace := by decide

/-- C1, amended: the shadow pass runs exactly once, inside Engine.init and
before every frame; each frame's trace is logic update followed by the
color pass only, so the color pass samples the shadow texture written by
the single init-time shadow pass, not one re-rendered the same frame. -/
theorem shadow_pass_once_at_init (n : ℕ) :
    runTrace n = RenderEvent.shadowPass ::
      (List.replicate n [RenderEvent.logicUpdate, RenderEvent.colorPass]).flatten ∧
    (runTrace n).count RenderEvent.shadowPass = 1 := by
  have h1 : runTrace n = RenderEvent.shadowPass ::
      (List.replicate n [RenderEvent.logicUpdate, RenderEvent.colorPass]).flatten := rfl
  refine ⟨h1, ?_⟩
  rw [h1]
  have h2 : ∀ m : ℕ,
      ((List.replicate m [RenderEvent.logicUpdate, RenderEvent.colorPass]).flatten).count
        RenderEvent.shadowPass = 0 := by
    intro m
    induction m with
    | zero => rfl
    | succ m ih =>
      rw [List.replicate_succ, List.flatten_cons, List.count_append, ih]
      decide
  rw [List.count_cons]
  rw [h2 n]
  simp

/-! ## C7: shadow comparison of the map fragment shader -/

/-- C7: with the 0.0007 bias, a fragment whose shadow-space depth is at
most the sampled depth plus the bias keeps its directional lit term, and a
fragment whose depth exceeds the sampled depth by more than the bias is
forced unlit; in particular depth = sampled + 0.0006 stays lit and
depth = sampled + 0.0008 becomes unlit. -/
theorem shadow_comparison (lightDot depth sampled : ℚ) :
    (depth ≤ sampled + shadowBias →
      mapFragmentLight lightDot depth sampled = lightDot) ∧
    (depth > sampled + shadowBias →
      mapFragmentLight lightDot depth sampled = 0) ∧
    mapFragmentLight lightDot (sampled + 6/10000) sampled = lightDot ∧
    mapFragmentLight lightDot (sampled + 8/10000) sampled = 0 := by
  unfold mapFragmentLight shadowBias
  refine ⟨?_, ?_, ?_, ?_⟩
  · intro h
    rw [if_neg (by linarith)]
  · intro h
    rw [if_pos (by linarith)]
  · rw [if_neg (by intro hlt; linarith)]
  · rw [if_pos (by linarith)]

/-- C7, witness: both branches evaluated at a concrete sampled depth. -/
theorem shadow_comparison_witness :
    mapFragmentLight 1 (1/2) (1/2) = 1 ∧
    mapFragmentLight 1 (1/2 + 1/1000) (1/2) = 0 :=
  ⟨(shadow_comparison 1 (1/2) (1/2)).1 (by norm_num [shadowBias]),
   (shadow_comparison 1 (1/2 + 1/1000) (1/2)).2.1 (by norm_num [shadowBias])⟩

/-! ## C10: camera angle bounds after Player.update -/

/-- C10: after every Player.update, whatever the mouse look-delta, the
pitch written to the camera lies in [-85, 85] and the yaw lies strictly
inside (-360, 360). -/
theorem camera_angles_bounded (angleX angleY mouseX mouseY : ℚ) :
    -85 ≤ (cameraRotationAfter angleX angleY mouseX mouseY).1 ∧
    (cameraRotationAfter angleX angleY mouseX mouseY).1 ≤ 85 ∧
    -360 < (cameraRotationAfter angleX angleY mouseX mouseY).2.1 ∧
    (cameraRotationAfter angleX angleY mouseX mouseY).2.1 < 360 := by
  unfold cameraRotationAfter updateAngleY updateAngleX
  refine ⟨?_, ?_, ?_, ?_⟩
  · exact le_min (le_max_right _ _) (by norm_num)
  · exact min_le_right _ _
  · exact (jsRem_360_bounds _).1
  · exact (jsRem_360_bounds _).2

/-! ## C8: velocity integration and exact clamping -/

/-- Rescaling a vector longer than the maximum yields length exactly the
maximum. -/
theorem vecLen_clampToMax (u : ℝ × ℝ) (h : vecLen u > moveMaxSpeed) :
    vecLen (clampToMax u) = moveMaxSpeed := by
  have hm : (0 : ℝ) < moveMaxSpeed := by norm_num [moveMaxSpeed]
  have hc : 0 < vecLen u := lt_trans hm h
  have hcne : vecLen u ≠ 0 := ne_of_gt hc
  unfold clampToMax
  rw [if_pos h]
  unfold vecLen at hc hcne ⊢
  have key : u.1 / Real.sqrt (u.1 * u.1 + u.2 * u.2) * moveMaxSpeed *
        (u.1 / Real.sqrt (u.1 * u.1 + u.2 * u.2) * moveMaxSpeed) +
      u.2 / Real.sqrt (u.1 * u.1 + u.2 * u.2) * moveMaxSpeed *
        (u.2 / Real.sqrt (u.1 * u.1 + u.2 * u.2) * moveMaxSpeed) =
      (moveMaxSpeed / Real.sqrt (u.1 * u.1 + u.2 * u.2)) ^ 2 *
        (u.1 * u.1 + u.2 * u.2) := by ring
  rw [key, Real.sqrt_mul (sq_nonneg _), Real.sqrt_sq (by positivity)]
  field_simp

/-- C8: each Player.update tick integrates the horizontal velocity as
v = v * 0.8 ^ delta + move * 0.012 * delta componentwise and afterwards,
exactly when the resulting length exceeds the maximum 0.04, rescales the
vector so its length equals exactly the maximum (otherwise it is left
unchanged). -/
theorem speed_integration_and_clamp (s m : ℝ × ℝ) (delta : ℝ) :
    updateSpeed s m delta =
      clampToMax (s.1 * (0.8 : ℝ) ^ delta + m.1 * moveAccel * delta,
                  s.2 * (0.8 : ℝ) ^ delta + m.2 * moveAccel * delta) ∧
    (vecLen (integrateSpeed s m delta) > moveMaxSpeed →
      vecLen (updateSpeed s m delta) = moveMaxSpeed) ∧
    (vecLen (integrateSpeed s m delta) ≤ moveMaxSpeed →
      updateSpeed s m delta = integrateSpeed s m delta) := by
  refine ⟨rfl, ?_, ?_⟩
  · intro h
    exact vecLen_clampToMax _ h
  · intro h
    unfold updateSpeed clampToMax
    rw [if_neg (not_lt.mpr h)]

/-- C8, witness: a concrete over-speed input is rescaled to length exactly
0.04. -/
theorem speed_integration_and_clamp_witness :
    vecLen (integrateSpeed ((0.05 : ℝ), 0) (0, 0) 0) > moveMaxSpeed ∧
    vecLen (updateSpeed ((0.05 : ℝ), 0) (0, 0) 0) = moveMaxSpeed := by
  have hint : integrateSpeed ((0.05 : ℝ), 0) (0, 0) 0 = (0.05, 0) := by
    unfold integrateSpeed
    norm_num [Real.rpow_zero]
  have hlen : vecLen ((0.05 : ℝ), 0) = 0.05 := by
    unfold vecLen
    rw [show (0.05 : ℝ) * 0.05 + 0 * 0 = 0.05 ^ 2 by norm_num]
    exact Real.sqrt_sq (by norm_num)
  have hgt : vecLen (integrateSpeed ((0.05 : ℝ), 0) (0, 0) 0) > moveMaxSpeed := by
    rw [hint, hlen]
    norm_num [moveMaxSpeed]
  exact ⟨hgt, (speed_integration_and_clamp ((0.05 : ℝ), 0) (0, 0) 0).2.1 hgt⟩

/-! ## C5: the wall scan checks only the adjacent cell -/

/-- The X-axis wall scan of gapGrid falls back to cell index 5. -/
theorem gap_scan_eval : nearestWallX gapGrid 0 0 0 1 = 5 := by
  unfold nearestWallX
  norm_num [playerRadius, playerHeight]
  decide

/-- C5, counterexample: in gapGrid a wall stands two cells ahead (column 2,
near face at 3/2, well inside the 5-cell lookahead), yet the X-axis scan
returns the far fallback boundary 9/2, not the nearest solid boundary. -/
theorem scan_misses_wall_inside_lookahead :
    hasWallAt gapGrid 0 0 2 = true ∧
    nearestWallBoundaryX gapGrid 0 0 0 1 = 9/2 ∧
    ¬ nearestWallBoundaryX gapGrid 0 0 0 1 = 3/2 := by
  refine ⟨by decide, ?_, ?_⟩ <;> unfold nearestWallBoundaryX <;>
    rw [gap_scan_eval] <;> norm_num

/-- C5, amended: the per-axis wall scan examines only the immediately
adjacent cell (column cx + dir for X, row cy + dir for Z) across the
player's vertical extent and lateral radius; when a wall is found there the
boundary is that cell's near face, and otherwise the boundary falls back to
current cell + dir * 5 minus 0.5, regardless of any wall 2 to 4 cells
ahead. -/
theorem wall_scan_adjacent_or_fallback (g : Grid) (pf px py : ℚ) (cy dir : ℤ) :
    (adjacentWallHitX g pf px py dir = true →
      nearestWallBoundaryX g pf px py dir =
        (⌊px + 1/2⌋ + dir + (if dir < 0 then 1 else 0) : ℤ) - (1/2 : ℚ)) ∧
    (adjacentWallHitX g pf px py dir = false →
      nearestWallBoundaryX g pf px py dir =
        (⌊px + 1/2⌋ + dir * 5 : ℤ) - (1/2 : ℚ)) ∧
    (adjacentWallHitZ g pf px cy dir = true →
      nearestWallBoundaryZ g pf px cy dir =
        (cy + dir + (if dir < 0 then 1 else 0) : ℤ) - (1/2 : ℚ)) ∧
    (adjacentWallHitZ g pf px cy dir = false →
      nearestWallBoundaryZ g pf px cy dir =
        (cy + dir * 5 : ℤ) - (1/2 : ℚ)) := by
  have hx : nearestWallX g pf px py dir =
      if adjacentWallHitX g pf px py dir then
        ⌊px + 1/2⌋ + dir + (if dir < 0 then 1 else 0)
      else ⌊px + 1/2⌋ + dir * 5 := by
    unfold nearestWallX adjacentWallHitX
    simp only [foldl_setIf]
  have hz : nearestWallZ g pf px cy dir =
      if adjacentWallHitZ g pf px cy dir then
        cy + dir + (if dir < 0 then 1 else 0)
      else cy + dir * 5 := by
    unfold nearestWallZ adjacentWallHitZ
    simp only [foldl_setIf]
  refine ⟨?_, ?_, ?_, ?_⟩ <;> intro h
  · unfold nearestWallBoundaryX
    rw [hx, h]
    simp
  · unfold nearestWallBoundaryX
    rw [hx, h]
    simp
  · unfold nearestWallBoundaryZ
    rw [hz, h]
    simp
  · unfold nearestWallBoundaryZ
    rw [hz, h]
    simp

/-- C5, witness: the amended characterisation evaluated on concrete grids
(adjacent hit in tunnelGrid, fallback in gapGrid). -/
theorem wall_scan_adjacent_or_fallback_witness :
    nearestWallBoundaryX tunnelGrid 0 0 0 1 =
      (⌊(0 : ℚ) + 1/2⌋ + 1 + (if (1 : ℤ) < 0 then 1 else 0) : ℤ) - (1/2 : ℚ) ∧
    nearestWallBoundaryX gapGrid 0 0 0 1 =
      (⌊(0 : ℚ) + 1/2⌋ + 1 * 5 : ℤ) - (1/2 : ℚ) :=
  ⟨(wall_scan_adjacent_or_fallback tunnelGrid 0 0 0 0 1).1 (by
      unfold adjacentWallHitX
      norm_num [playerRadius, playerHeight]
      decide),
   (wall_scan_adjacent_or_fallback gapGrid 0 0 0 0 1).2.1 (by
      unfold adjacentWallHitX
      norm_num [playerRadius, playerHeight]
      decide)⟩

/-! ## C3: collision clamp invariant -/

/-- Case split on the travel direction. -/
theorem dirOf_cases (s : ℚ) : dirOf s = 1 ∨ dirOf s = -1 := by
  unfold dirOf
  split_ifs <;> simp

/-- The per-axis clamp never lets the position cross the nearest boundary
minus the player radius, provided the tentative post-move position does not
overshoot past the far side of that boundary; and for a nonzero incoming
axis speed, the outgoing axis speed is zero exactly when the clamp fires. -/
theorem resolveAxis_no_cross (n p s delta : ℚ) (dir : ℤ)
    (hdir : dir = 1 ∨ dir = -1) (hs : s ≠ 0)
    (hover : (dir : ℚ) * (p + s * delta) < (dir : ℚ) * n + playerRadius) :
    (dir : ℚ) * (resolveAxis n p s delta dir).1 ≤ (dir : ℚ) * n - playerRadius ∧
    ((resolveAxis n p s delta dir).2 = 0 ↔
      |n - (p + s * delta)| < playerRadius) := by
  simp only [resolveAxis]
  rcases hdir with h | h <;> subst h <;> split_ifs with hc <;> dsimp only <;>
    refine ⟨?_, ?_⟩
  · push_cast
    norm_num [playerRadius]
    linarith
  · exact ⟨fun _ => hc, fun _ => rfl⟩
  · have h2 := not_lt.mp hc
    rcases le_abs.mp h2 with h3 | h3
    · push_cast at hover ⊢
      norm_num [playerRadius] at h3 ⊢
      linarith
    · push_cast at hover ⊢
      norm_num [playerRadius] at hover h3 ⊢
      linarith
  · exact ⟨fun h0 => absurd h0 hs, fun hd => absurd hd hc⟩
  · push_cast
    norm_num [playerRadius]
    linarith
  · exact ⟨fun _ => hc, fun _ => rfl⟩
  · have h2 := not_lt.mp hc
    rcases le_abs.mp h2 with h3 | h3
    · push_cast at hover ⊢
      norm_num [playerRadius] at hover h3 ⊢
      linarith
    · push_cast at hover ⊢
      norm_num [playerRadius] at hover h3 ⊢
      linarith
  · exact ⟨fun h0 => absurd h0 hs, fun hd => absurd hd hc⟩

/-- The nearest boundary seen from the open cell of tunnelGrid. -/
theorem nearestX_tunnel_eval : nearestX tunnelGrid [] 0 0 0 1 = 1/2 := by
  have h : nearestWallX tunnelGrid 0 0 0 1 = 1 := by
    unfold nearestWallX
    norm_num [playerRadius, playerHeight]
    decide
  unfold nearestX nearestBoxX nearestWallBoundaryX
  rw [h]
  norm_num

/-- Full evaluation of the tunnelling collide step. -/
theorem collide_tunnel_eval :
    (collide tunnelGrid [] tunnelStart 250).position.1 = 10 ∧
    (collide tunnelGrid [] tunnelStart 250).speed.1 = 1/25 := by
  have hdir : dirOf ((1 : ℚ)/25) = 1 := by norm_num [dirOf]
  unfold collide tunnelStart
  norm_num [hdir, nearestX_tunnel_eval, resolveAxis, playerRadius,
    abs_of_nonneg]

/-- C3, counterexample: the resolution is a post-move overlap test, not a
swept test, so a large speed * delta tunnels straight through a solid
boundary inside the lookahead window.  A legal post-clamp speed of 0.04
with a frame delta of 250 moves the player from x = 0 to x = 10, crossing
the wall boundary 1/2 minus the radius by 9.7, far more than the 0.001
epsilon; no clamp fires and the speed is kept. -/
theorem collide_tunnels_through_wall :
    hasWallAt tunnelGrid 0 0 1 = true ∧
    nearestX tunnelGrid [] 0 0 0 1 = 1/2 ∧
    (collide tunnelGrid [] tunnelStart 250).position.1 = 10 ∧
    ¬ ((collide tunnelGrid [] tunnelStart 250).position.1 ≤
        1/2 - playerRadius + 1/1000) ∧
    (collide tunnelGrid [] tunnelStart 250).speed.1 = 1/25 := by
  refine ⟨by decide, nearestX_tunnel_eval, collide_tunnel_eval.1, ?_,
    collide_tunnel_eval.2⟩
  rw [collide_tunnel_eval.1]
  norm_num [playerRadius]

/-- C3, amended: for every grid, box list, state and delta, on each axis
with nonzero velocity whose tentative post-move position does not overshoot
past the far side of the nearest solid boundary seen by that axis (the
no-tunneling condition), Player.collide leaves the resolved position at
least the player radius away from that boundary (it does not cross boundary
minus radius at all), and the axis velocity is set to 0 exactly when the
clamp fires.  The X axis uses the original position; the Z axis uses the
x position already resolved by the X pass. -/
theorem collide_axis_no_cross (g : Grid) (boxes : List CollisionBox)
    (st : PlayerState) (delta : ℚ) :
    (st.speed.1 ≠ 0 →
      (dirOf st.speed.1 : ℚ) * (st.position.1 + st.speed.1 * delta) <
        (dirOf st.speed.1 : ℚ) *
          nearestX g boxes st.position.2.1 st.position.1 st.position.2.2
            (dirOf st.speed.1) + playerRadius →
      (dirOf st.speed.1 : ℚ) * (collide g boxes st delta).position.1 ≤
        (dirOf st.speed.1 : ℚ) *
          nearestX g boxes st.position.2.1 st.position.1 st.position.2.2
            (dirOf st.speed.1) - playerRadius ∧
      ((collide g boxes st delta).speed.1 = 0 ↔
        |nearestX g boxes st.position.2.1 st.position.1 st.position.2.2
            (dirOf st.speed.1) - (st.position.1 + st.speed.1 * delta)| <
          playerRadius)) ∧
    (st.speed.2 ≠ 0 →
      (dirOf st.speed.2 : ℚ) * (st.position.2.2 + st.speed.2 * delta) <
        (dirOf st.speed.2 : ℚ) *
          nearestZ g boxes st.position.2.1
            (collide g boxes st delta).position.1 st.position.2.2
            ⌊st.position.2.2 + 1/2⌋ (dirOf st.speed.2) + playerRadius →
      (dirOf st.speed.2 : ℚ) * (collide g boxes st delta).position.2.2 ≤
        (dirOf st.speed.2 : ℚ) *
          nearestZ g boxes st.position.2.1
            (collide g boxes st delta).position.1 st.position.2.2
            ⌊st.position.2.2 + 1/2⌋ (dirOf st.speed.2) - playerRadius ∧
      ((collide g boxes st delta).speed.2 = 0 ↔
        |nearestZ g boxes st.position.2.1
            (collide g boxes st delta).position.1 st.position.2.2
            ⌊st.position.2.2 + 1/2⌋ (dirOf st.speed.2) -
          (st.position.2.2 + st.speed.2 * delta)| < playerRadius)) := by
  constructor
  · intro hsx hover
    have hpos : (collide g boxes st delta).position.1 =
        (resolveAxis
          (nearestX g boxes st.position.2.1 st.position.1 st.position.2.2
            (dirOf st.speed.1)) st.position.1 st.speed.1 delta
          (dirOf st.speed.1)).1 := by
      simp only [collide, if_pos hsx]
    have hspd : (collide g boxes st delta).speed.1 =
        (resolveAxis
          (nearestX g boxes st.position.2.1 st.position.1 st.position.2.2
            (dirOf st.speed.1)) st.position.1 st.speed.1 delta
          (dirOf st.speed.1)).2 := by
      simp only [collide, if_pos hsx]
    rw [hpos, hspd]
    exact resolveAxis_no_cross _ _ _ _ _ (dirOf_cases _) hsx hover
  · intro hsy hover
    have hpos : (collide g boxes st delta).position.2.2 =
        (resolveAxis
          (nearestZ g boxes st.position.2.1
            (collide g boxes st delta).position.1 st.position.2.2
            ⌊st.position.2.2 + 1/2⌋ (dirOf st.speed.2)) st.position.2.2
          st.speed.2 delta (dirOf st.speed.2)).1 := by
      simp only [collide, if_pos hsy]
    have hspd : (collide g boxes st delta).speed.2 =
        (resolveAxis
          (nearestZ g boxes st.position.2.1
            (collide g boxes st delta).position.1 st.position.2.2
            ⌊st.position.2.2 + 1/2⌋ (dirOf st.speed.2)) st.position.2.2
          st.speed.2 delta (dirOf st.speed.2)).2 := by
      simp only [collide, if_pos hsy]
    rw [hpos, hspd]
    exact resolveAxis_no_cross _ _ _ _ _ (dirOf_cases _) hsy hover

/-- The x position is unchanged by collide when the X speed is zero (the
zGrid fixture moves only along Z). -/
theorem collide_zGrid_x_eval : (collide zGrid [] zStart 1).position.1 = 0 := by
  norm_num [collide, zStart]

/-- The nearest Z boundary seen from the open cell of zGrid. -/
theorem nearestZ_zGrid_eval : nearestZ zGrid [] 0 0 0 0 1 = 1/2 := by
  have h : nearestWallZ zGrid 0 0 0 1 = 1 := by
    unfold nearestWallZ
    norm_num [playerRadius, playerHeight]
    decide
  unfold nearestZ nearestBoxZ nearestWallBoundaryZ
  rw [h]
  norm_num

/-- C3, witness: the amended invariant evaluated on both axes --- a slow
player walking toward the wall of tunnelGrid along X, and toward the wall
of zGrid along Z. -/
theorem collide_axis_no_cross_witness :
    ((dirOf slowStart.speed.1 : ℚ) * (collide tunnelGrid [] slowStart 1).position.1 ≤
      (dirOf slowStart.speed.1 : ℚ) *
        nearestX tunnelGrid [] slowStart.position.2.1 slowStart.position.1
          slowStart.position.2.2 (dirOf slowStart.speed.1) - playerRadius) ∧
    ((dirOf zStart.speed.2 : ℚ) * (collide zGrid [] zStart 1).position.2.2 ≤
      (dirOf zStart.speed.2 : ℚ) *
        nearestZ zGrid [] zStart.position.2.1
          (collide zGrid [] zStart 1).position.1 zStart.position.2.2
          ⌊zStart.position.2.2 + 1/2⌋ (dirOf zStart.speed.2) - playerRadius) :=
  ⟨((collide_axis_no_cross tunnelGrid [] slowStart 1).1
      (by norm_num [slowStart])
      (by norm_num [slowStart, dirOf, nearestX_tunnel_eval, playerRadius])).1,
   ((collide_axis_no_cross zGrid [] zStart 1).2
      (by norm_num [zStart])
      (by
        rw [collide_zGrid_x_eval]
        norm_num [zStart, dirOf, nearestZ_zGrid_eval, playerRadius])).1⟩


/-! ## C4: floor and stair snapping -/

/-- C4: after putOnFloor the player's Y is at least the grid floor height
(a stair can only raise, never lower, the player), and a player directly
above a single stair at the stair's local coordinate (0, 0) (inside its
footprint, with the grid floor not above the ramp midpoint) is placed at
exactly Y = stair.y + 1 - 0.25, the midpoint of the ramp. -/
theorem putOnFloor_stair_height :
    (∀ (g : Grid) (ents : List Entity) (pos : ℚ × ℚ × ℚ),
      (gridFloorScan g pos).1 ≤ (putOnFloor g ents pos).1) ∧
    (∀ (g : Grid) (en : Entity) (pos : ℚ × ℚ × ℚ),
      en.type = CellType.Stair → pos.1 = en.x → pos.2.2 = en.z →
      en.y ≤ ((⌊pos.2.1 + 1/2⌋ : ℤ) : ℚ) →
      (gridFloorScan g pos).1 ≤ en.y + 3/4 →
      (putOnFloor g [en] pos).1 = en.y + 1 - 1/4) := by
  constructor
  · intro g ents pos
    unfold putOnFloor
    exact le_max_left _ _
  · intro g en pos ht hx hz hy hf
    unfold putOnFloor stairScan
    rw [hx, hz]
    simp only [ht, hy, sub_self, zero_mul, mul_zero, and_self,
      List.filter_cons, List.filter_nil, List.foldl_cons, List.foldl_nil,
      zero_sub, sub_zero]
    norm_num
    linarith

/-- The grid floor scan of the stair fixture evaluates to height 0. -/
theorem gridFloorScan_stair_eval : (gridFloorScan stairGrid (2, 1/5, 3)).1 = 0 := by
  unfold gridFloorScan
  norm_num [intRange, cellOpt, stairGrid, openCellF, emptyCell,
    List.findSome?]
  decide

/-- C4, witness: the stair fixture places the player at 0 + 1 - 0.25. -/
theorem putOnFloor_stair_height_witness :
    (putOnFloor stairGrid [stairEnt] (2, 1/5, 3)).1 = stairEnt.y + 1 - 1/4 :=
  putOnFloor_stair_height.2 stairGrid stairEnt (2, 1/5, 3) rfl rfl rfl
    (by norm_num [stairEnt])
    (by rw [gridFloorScan_stair_eval]; norm_num [stairEnt])

/-! ## C2 and C9: instanced sprite rendering and content-error fallbacks -/

/-- When every live billboard frame has an atlas entry, the flattened
instance streams are exactly one record per billboard entry, in order. -/
theorem instanceList_eq_map (atlas : SpriteAtlas) (tpls : List SpriteTemplate) :
    ∀ entries : List SpriteEntry,
      (∀ en ∈ entries, ∃ fr, currentFrameOf tpls en = some fr ∧
        (fr.mesh = false → (atlas.frames (spriteAtlasKey fr.name)).isSome)) →
      instanceList atlas tpls entries =
        (entries.filter (isBillboard tpls)).map
          (fun en => (instanceOf atlas tpls en).getD default) := by
  intro entries
  induction entries with
  | nil => intro _; rfl
  | cons en l ih =>
    intro hall
    obtain ⟨fr, hfr, hmesh⟩ := hall en (List.mem_cons_self en l)
    have hl := ih (fun e he => hall e (List.mem_cons_of_mem en he))
    cases hm : fr.mesh with
    | true =>
      have h1 : instanceOf atlas tpls en = none := by
        simp [instanceOf, hfr, hm]
      have h2 : isBillboard tpls en = false := by
        simp [isBillboard, hfr, hm]
      unfold instanceList at hl ⊢
      rw [List.filterMap_cons_none h1, List.filter_cons_of_neg (by simp [h2]), hl]
    | false =>
      obtain ⟨it, hit⟩ := Option.isSome_iff_exists.mp (hmesh hm)
      have h1 : instanceOf atlas tpls en = some
          { uvStart := (it.x / atlas.width + 1/1000, it.y / atlas.height + 1/1000),
            uvSize := (it.width / atlas.width - 1/500, it.height / atlas.height - 1/500),
            offset := en.offset, scale := en.scale,
            color := if en.lit then 1 else 0 } := by
        simp [instanceOf, hfr, hm, hit]
      have h2 : isBillboard tpls en = true := by
        simp [isBillboard, hfr, hm]
      unfold instanceList at hl ⊢
      rw [List.filterMap_cons_some h1, List.filter_cons_of_pos (by simp [h2]),
        List.map_cons, hl, h1]
      rfl

/-- C2: in the color pass all live non-mesh sprite entries are rendered by
a single instanced draw call of 6 indices over the one shared unit-quad
mesh, whose instance count equals the number of live billboards; each
instance carries atlas UV origin, atlas UV size, world offset, uniform
scale and the lit flag, and every one of these attributes is configured
with vertexAttribDivisor 1. -/
theorem sprites_one_instanced_draw (atlas : SpriteAtlas)
    (tpls : List SpriteTemplate) (entries : List SpriteEntry)
    (hall : ∀ en ∈ entries, ∃ fr, currentFrameOf tpls en = some fr ∧
      (fr.mesh = false → (atlas.frames (spriteAtlasKey fr.name)).isSome)) :
    renderBillboardsDraw atlas tpls entries =
      { indexCount := 6,
        instanceCount := (entries.filter (isBillboard tpls)).length } ∧
    instanceList atlas tpls entries =
      (entries.filter (isBillboard tpls)).map
        (fun en => (instanceOf atlas tpls en).getD default) ∧
    (∀ en ∈ entries, ∀ fr it, currentFrameOf tpls en = some fr →
      fr.mesh = false → atlas.frames (spriteAtlasKey fr.name) = some it →
      instanceOf atlas tpls en = some
        { uvStart := (it.x / atlas.width + 1/1000,
                      it.y / atlas.height + 1/1000),
          uvSize := (it.width / atlas.width - 1/500,
                     it.height / atlas.height - 1/500),
          offset := en.offset, scale := en.scale,
          color := if en.lit then 1 else 0 }) ∧
    (∀ d ∈ rebuildVaoDivisorCalls, d.2 = 1) := by
  have hmap := instanceList_eq_map atlas tpls entries hall
  refine ⟨?_, hmap, ?_, by decide⟩
  · unfold renderBillboardsDraw billboardCount
    rw [hmap, List.length_map]
  · intro en _ fr it hfr hm hit
    simp [instanceOf, hfr, hm, hit]

/-- C2, witness: one template, one entry, its atlas item present. -/
theorem sprites_one_instanced_draw_witness :
    renderBillboardsDraw wAtlas [wTpl] [wEntry] =
      { indexCount := 6,
        instanceCount := ([wEntry].filter (isBillboard [wTpl])).length } :=
  (sprites_one_instanced_draw wAtlas [wTpl] [wEntry] (by
    intro en hen
    rw [List.mem_singleton] at hen
    subst hen
    exact ⟨wFrame, rfl, fun _ => by decide⟩)).1

/-- C9: a sprite entry whose current frame has no matching atlas entry is
skipped (it contributes no instance) while every other entry still renders;
and collider generation for a template with no mesh frame always yields the
fixed default collision box of size (0.14, 1, 0.14) at the entity
position. -/
theorem missing_atlas_skip_and_collider_defaults :
    (∀ (atlas : SpriteAtlas) (tpls : List SpriteTemplate)
        (l1 l2 : List SpriteEntry) (en : SpriteEntry) (fr : SpriteFrame),
      currentFrameOf tpls en = some fr → fr.mesh = false →
      atlas.frames (spriteAtlasKey fr.name) = none →
      instanceList atlas tpls (l1 ++ en :: l2) =
        instanceList atlas tpls l1 ++ instanceList atlas tpls l2) ∧
    (∀ (mc : String → ℚ × ℚ × ℚ → ℤ → ℚ → CollisionBox) (sd : SpriteDef)
        (pos : ℚ × ℚ × ℚ) (side : ℤ),
      (∀ fr ∈ sd.frames, fr.mesh = false) →
      generateCollider mc sd pos side =
        { position := pos, size := (7/50, 1, 7/50) }) := by
  constructor
  · intro atlas tpls l1 l2 en fr hfr hm hit
    have h1 : instanceOf atlas tpls en = none := by
      simp [instanceOf, hfr, hm, hit]
    unfold instanceList
    rw [List.filterMap_append, List.filterMap_cons_none h1]
  · intro mc sd pos side hall
    unfold generateCollider
    have h1 : sd.frames.find? (fun fr => fr.mesh) = none := by
      rw [List.find?_eq_none]
      intro fr hfr
      simp [hall fr hfr]
    rw [h1]

/-- C9, witness: an entry with an empty atlas and a billboard-only
definition. -/
theorem missing_atlas_skip_and_collider_defaults_witness :
    instanceList noFrameAtlas [wTpl] ([] ++ wEntry :: []) =
      instanceList noFrameAtlas [wTpl] [] ++ instanceList noFrameAtlas [wTpl] [] ∧
    generateCollider wModelCollider wDef (1, 2, 3) 0 =
      { position := (1, 2, 3), size := (7/50, 1, 7/50) } :=
  ⟨missing_atlas_skip_and_collider_defaults.1 noFrameAtlas [wTpl] [] [] wEntry
      wFrame rfl rfl rfl,
   missing_atlas_skip_and_collider_defaults.2 wModelCollider wDef (1, 2, 3) 0
      (by decide)⟩

/-! ## C6: wall-face emission of the geometry builder -/

/-- In a rectangular grid every floor has mapHeight rows of mapWidth
cells. -/
theorem rect_lengths (g : Grid) (hrect : IsRect g) (fl : ℕ)
    (hfl : fl < g.length) :
    ((g.get? fl).getD []).length = mapHeight g ∧
    ∀ y, y < mapHeight g →
      ((((g.get? fl).getD []).get? y).getD []).length = mapWidth g := by
  have hrows : g.get? fl = some (g.get ⟨fl, hfl⟩) := List.get?_eq_get hfl
  have hmem : g.get ⟨fl, hfl⟩ ∈ g := List.get_mem g fl hfl
  have h1 := hrect _ hmem
  constructor
  · rw [hrows]
    exact h1.1
  · intro y hy
    have hy2 : y < (g.get ⟨fl, hfl⟩).length := by rw [h1.1]; exact hy
    have hrow : (g.get ⟨fl, hfl⟩).get? y =
        some ((g.get ⟨fl, hfl⟩).get ⟨y, hy2⟩) := List.get?_eq_get hy2
    rw [hrows]
    dsimp only [Option.getD_some]
    rw [hrow]
    exact h1.2 _ (List.get_mem _ y hy2)

/-- The emission conditions evaluated at a key whose cell is open and whose
neighbour is an in-bounds wall. -/
theorem wallQuadAt_eval (atlas : MapAtlas) (g : Grid) (fl yn xn xc yc i : ℕ)
    (w : String)
    (hxc : (xc : ℤ) = (xn : ℤ) + xoff i) (hyc : (yc : ℤ) = (yn : ℤ) + yoff i)
    (hxb : xc < mapWidth g) (hyb : yc < mapHeight g)
    (hopen : (cellAtN g fl yn xn).wall = none)
    (hwall : (cellAtN g fl yc xc).wall = some w) :
    wallQuadAt atlas g (fl, yn, xn, i) = some (mkWallQuad atlas w fl yn xn i) := by
  have hb : 0 ≤ (xn : ℤ) + xoff i ∧ (xn : ℤ) + xoff i < (mapWidth g : ℤ) ∧
      0 ≤ (yn : ℤ) + yoff i ∧ (yn : ℤ) + yoff i < (mapHeight g : ℤ) := by
    refine ⟨by omega, by omega, by omega, by omega⟩
  have hxt : ((xn : ℤ) + xoff i).toNat = xc := by omega
  have hyt : ((yn : ℤ) + yoff i).toNat = yc := by omega
  simp only [wallQuadAt]
  rw [if_pos hopen, if_pos hb, hxt, hyt, hwall]


/-- C6: for every wall cell C with an in-bounds non-wall neighbour N the
builder emits exactly one wall quad keyed by (N, direction toward C) --- a
quad of 4 vertices and 2 triangles whose normal is the unit-direction from
C into N's open space scaled by 1/2 --- and a wall cell all of whose
in-bounds neighbours are walls has zero wall quads at its boundaries. -/
theorem wall_quad_per_open_neighbor :
    (∀ (atlas : MapAtlas) (g : Grid), IsRect g →
      ∀ (fl yn xn xc yc i : ℕ) (w : String),
        fl < g.length → yn < mapHeight g → xn < mapWidth g → i < 4 →
        (xc : ℤ) = (xn : ℤ) + xoff i → (yc : ℤ) = (yn : ℤ) + yoff i →
        xc < mapWidth g → yc < mapHeight g →
        (cellAtN g fl yn xn).wall = none →
        (cellAtN g fl yc xc).wall = some w →
        ((wallQuads atlas g).countP
            (fun q => decide (quadKey q = (fl, yn, xn, i))) = 1 ∧
         mkWallQuad atlas w fl yn xn i ∈ wallQuads atlas g ∧
         (mkWallQuad atlas w fl yn xn i).verts.length = 4 ∧
         (mkWallQuad atlas w fl yn xn i).tris.length = 2 ∧
         (mkWallQuad atlas w fl yn xn i).normal =
           (-(xoff i : ℚ) / 2, 0, -(yoff i : ℚ) / 2))) ∧
    (∀ (atlas : MapAtlas) (g : Grid), IsRect g →
      ∀ (fl yc xc : ℕ) (w : String),
        (cellAtN g fl yc xc).wall = some w →
        (∀ j, j < 4 → ∀ yn xn : ℕ, (yn : ℤ) = (yc : ℤ) + yoff j →
          (xn : ℤ) = (xc : ℤ) + xoff j → yn < mapHeight g → xn < mapWidth g →
          (cellAtN g fl yn xn).wall ≠ none) →
        (wallQuads atlas g).countP
          (fun q => decide (quadWallCell q = (fl, (yc : ℤ), (xc : ℤ)))) = 0) := by
  constructor
  · intro atlas g hrect fl yn xn xc yc i w hfl hyn hxn hi hxc hyc hxb hyb hopen hwall
    have heval := wallQuadAt_eval atlas g fl yn xn xc yc i w hxc hyc hxb hyb hopen hwall
    have hlen := rect_lengths g hrect fl hfl
    have hmem : (fl, yn, xn, i) ∈ quadKeys g := by
      rw [mem_quadKeys]
      refine ⟨hfl, ?_, ?_, hi⟩
      · rw [hlen.1]
        exact hyn
      · rw [hlen.2 yn hyn]
        exact hxn
    refine ⟨?_, ?_, rfl, rfl, ?_⟩
    · unfold wallQuads
      rw [countP_filterMap_key (quadKeys g) (wallQuadAt atlas g) quadKey
        (wallQuadAt_key atlas g) (quadKeys_nodup g) (fl, yn, xn, i)]
      rw [if_pos ⟨hmem, by rw [heval]; rfl⟩]
    · exact List.mem_filterMap.mpr ⟨(fl, yn, xn, i), hmem, heval⟩
    · interval_cases i <;> simp [mkWallQuad, sinI, cosI, xoff, yoff] <;> norm_num
  · intro atlas g hrect fl yc xc w hwall hnbr
    rw [List.countP_eq_zero]
    intro q hq
    obtain ⟨k, hkmem, hkeq⟩ := List.mem_filterMap.mp hq
    obtain ⟨fl2, y2, x2, i2⟩ := k
    have hbounds := (mem_quadKeys g fl2 y2 x2 i2).mp hkmem
    -- dissect the emission conditions
    simp only [wallQuadAt] at hkeq
    by_cases hopen : (cellAtN g fl2 y2 x2).wall = none
    · rw [if_pos hopen] at hkeq
      by_cases hb : 0 ≤ (x2 : ℤ) + xoff i2 ∧ (x2 : ℤ) + xoff i2 < (mapWidth g : ℤ) ∧
          0 ≤ (y2 : ℤ) + yoff i2 ∧ (y2 : ℤ) + yoff i2 < (mapHeight g : ℤ)
      · rw [if_pos hb] at hkeq
        rcases hw2 : (cellAtN g fl2 ((y2 : ℤ) + yoff i2).toNat
            ((x2 : ℤ) + xoff i2).toNat).wall with _ | w2
        · rw [hw2] at hkeq
          cases hkeq
        · rw [hw2] at hkeq
          cases hkeq
          simp only [quadWallCell, mkWallQuad, decide_eq_true_eq]
          intro htgt
          rw [Prod.mk.injEq, Prod.mk.injEq] at htgt
          obtain ⟨hfl2, hy2, hx2⟩ := htgt
          -- the open cell (y2, x2) is an in-bounds neighbour of the wall cell
          subst hfl2
          have hi2 : i2 < 4 := hbounds.2.2.2
          have hlen := rect_lengths g hrect fl2 hbounds.1
          have hy2b : y2 < mapHeight g := by
            have := hbounds.2.1
            rw [hlen.1] at this
            exact this
          have hx2b : x2 < mapWidth g := by
            have := hbounds.2.2.1
            rw [hlen.2 y2 hy2b] at this
            exact this
          -- choose the opposite direction
          interval_cases i2
          · exact hnbr 2 (by norm_num) y2 x2 (by simp [yoff] at hy2 ⊢; omega)
              (by simp [xoff] at hx2 ⊢; omega) hy2b hx2b hopen
          · exact hnbr 3 (by norm_num) y2 x2 (by simp [yoff] at hy2 ⊢; omega)
              (by simp [xoff] at hx2 ⊢; omega) hy2b hx2b hopen
          · exact hnbr 0 (by norm_num) y2 x2 (by simp [yoff] at hy2 ⊢; omega)
              (by simp [xoff] at hx2 ⊢; omega) hy2b hx2b hopen
          · exact hnbr 1 (by norm_num) y2 x2 (by simp [yoff] at hy2 ⊢; omega)
              (by simp [xoff] at hx2 ⊢; omega) hy2b hx2b hopen
      · rw [if_neg hb] at hkeq
        cases hkeq
    · rw [if_neg hopen] at hkeq
      cases hkeq


/-- C6, witness: one open/wall pair emits exactly one quad; the middle wall
of a row of three walls gets none. -/
theorem wall_quad_per_open_neighbor_witness :
    ((wallQuads wMapAtlas wallOpenGrid).countP
        (fun q => decide (quadKey q = (0, 0, 1, 3))) = 1 ∧
      mkWallQuad wMapAtlas brickName 0 0 1 3 ∈ wallQuads wMapAtlas wallOpenGrid ∧
      (mkWallQuad wMapAtlas brickName 0 0 1 3).verts.length = 4 ∧
      (mkWallQuad wMapAtlas brickName 0 0 1 3).tris.length = 2 ∧
      (mkWallQuad wMapAtlas brickName 0 0 1 3).normal =
        (-(xoff 3 : ℚ) / 2, 0, -(yoff 3 : ℚ) / 2)) ∧
    (wallQuads wMapAtlas enclosedGrid).countP
      (fun q => decide (quadWallCell q = (0, (0 : ℤ), (1 : ℤ)))) = 0 :=
  ⟨wall_quad_per_open_neighbor.1 wMapAtlas wallOpenGrid
      (by unfold IsRect mapHeight mapWidth; decide) 0 0 1 0 0 3
      brickName (by decide) (by decide) (by decide) (by decide) (by decide)
      (by decide) (by decide) (by decide) (by decide) (by decide),
   wall_quad_per_open_neighbor.2 wMapAtlas enclosedGrid
      (by unfold IsRect mapHeight mapWidth; decide) 0 0 1
      brickName (by decide) (by
        intro j hj yn xn hyn hxn hynb hxnb
        rw [show mapHeight enclosedGrid = 1 from rfl] at hynb
        rw [show mapWidth enclosedGrid = 3 from rfl] at hxnb
        interval_cases j
        · simp [yoff] at hyn
        · have hxn2 : xn = 2 := by
            simp [xoff] at hxn
            omega
          have hyn2 : yn = 0 := by
            simp [yoff] at hyn
            omega
          subst hxn2
          subst hyn2
          decide
        · simp [yoff] at hyn
          omega
        · have hxn2 : xn = 0 := by
            simp [xoff] at hxn
            omega
          have hyn2 : yn = 0 := by
            simp [yoff] at hyn
            omega
          subst hxn2
          subst hyn2
          decide)⟩

end Summer
